import Mathlib

/-!
Verification development for the sui-rgp-autopilot decision engine.

The repository's core (`src/computeRgp.js`, `src/metrics.js`) is shallowly
embedded here.  JavaScript numbers are idealised as rationals (`ℚ`): every
numeric value reached on the modelled control paths is produced from finite
inputs by field operations, so no NaN/Infinity arises except where the source
explicitly tests `Number.isFinite` on optional inputs, which is modelled with
`Option`.  JavaScript `BigInt` values are embedded as `ℤ` with `Int.tdiv`
(both truncate the quotient toward zero).  The distinction between the
JavaScript values `undefined`, `null` and a number — which the source code's
`clamp` helper depends on via `lo !== undefined` — is modelled explicitly by
the type `JsNum`.
-/

namespace SuiRgp

/-- A JavaScript value that is either `undefined`, `null`, or a (finite)
number.  `clamp` in `computeRgp.js` distinguishes `undefined` (`lo !==
undefined`) from `null` (the value the caller actually passes when guard
rails are disabled), so the embedding must keep all three apart. -/
inductive JsNum where
  | undef
  | null
  | num (q : ℚ)
deriving DecidableEq

/-- JS `ToNumber` coercion as used in relational comparison and addition:
`null` coerces to `0`.  (`undefined` coerces to NaN; no modelled control path
applies arithmetic to `undefined`, so it is mapped to `0` here.) -/
def jsToNum : JsNum → ℚ
  | .undef => 0
  | .null => 0
  | .num q => q

/-- JS relational `x < v` for a number `x` and a possibly-null value `v`:
comparison against `undefined` is false (NaN), `null` coerces to `0`. -/
def jsLtNum (x : ℚ) : JsNum → Bool
  | .undef => false
  | .null => decide (x < 0)
  | .num q => decide (x < q)

/-- JS relational `x > v`, as `jsLtNum`. -/
def jsGtNum (x : ℚ) : JsNum → Bool
  | .undef => false
  | .null => decide (0 < x)
  | .num q => decide (q < x)

/-- JS loose equality `v == null` (true for both `null` and `undefined`). -/
def jsLooseNull : JsNum → Bool
  | .undef => true
  | .null => true
  | .num _ => false

/-- JS `Number.isFinite` on a `JsNum` (no coercion: false for `null`). -/
def jsIsFinite : JsNum → Bool
  | .num _ => true
  | _ => false

/-- `clamp` from `computeRgp.js` (lines 71-75):
`if (lo !== undefined && x < lo) return lo;
 if (hi !== undefined && x > hi) return hi;  return x;`
Note that the guards test `!== undefined`, so a `null` bound IS compared
(coercing to `0`) and can be returned. -/
def clamp (x : ℚ) (lo hi : JsNum) : JsNum :=
  if lo ≠ JsNum.undef ∧ jsLtNum x lo = true then lo
  else if hi ≠ JsNum.undef ∧ jsGtNum x hi = true then hi
  else .num x

/-- JS `Math.round`: round half toward positive infinity, `⌊x + 1/2⌋`. -/
def jround (x : ℚ) : ℤ := ⌊x + 1 / 2⌋

/-- `roundToStep` from `computeRgp.js` (lines 66-69).  `x` is always finite
in the ℚ model, so only the `step <= 0` escape remains. -/
def roundToStep (x step : ℚ) : ℚ :=
  if step ≤ 0 then x else ((jround (x / step) : ℤ) : ℚ) * step

/-- Line 118 of `computeRgp.js`:
`if (Number.isFinite(minRgpMist)) R_final = Math.max(R_final, minRgpMist)`
(`none` models an absent or non-finite bound). -/
def applyAbsMin (x : ℚ) : Option ℚ → ℚ
  | some m => max x m
  | none => x

/-- Line 119 of `computeRgp.js`:
`if (Number.isFinite(maxRgpMist)) R_final = Math.min(R_final, maxRgpMist)`. -/
def applyAbsMax (x : ℚ) : Option ℚ → ℚ
  | some M => min x M
  | none => x

/-- `chooseJitter` from `computeRgp.js` (lines 153-178).  The ambient
`Math.random`-based `randInt` is injected as `rand`; a faithful draw
satisfies `a ≤ rand a b ≤ b` whenever `a ≤ b` (`RandInRange` below). -/
def chooseJitter (rand : ℤ → ℤ → ℤ) (R_clamped clampMin clampMax : JsNum)
    (baseLow baseHigh : ℤ) : ℤ :=
  -- No rails → full base range
  if jsLooseNull clampMin = true ∨ jsLooseNull clampMax = true then
    rand (-baseLow) baseHigh
  -- At min clamp → only non-negative
  else if jsIsFinite clampMin = true ∧ R_clamped = clampMin then
    rand 0 baseHigh
  -- At max clamp → only non-positive
  else if jsIsFinite clampMax = true ∧ R_clamped = clampMax then
    rand (-baseLow) 0
  else
    -- Inside band → intersect with clamp room
    let lowRoom := ⌈jsToNum clampMin - jsToNum R_clamped⌉
    let highRoom := ⌊jsToNum clampMax - jsToNum R_clamped⌋
    let lo := max (-baseLow) lowRoom
    let hi := min baseHigh highRoom
    if lo > hi then 0 else rand lo hi

/-- A random-integer provider that honours its requested range. -/
def RandInRange (rand : ℤ → ℤ → ℤ) : Prop :=
  ∀ a b : ℤ, a ≤ b → a ≤ rand a b ∧ rand a b ≤ b

/-- The `options` argument of `computeNewRgpFromInputs`.  `none` models an
absent (`undefined`) or non-finite field. -/
structure RgpOptions where
  guardRailsEnabled : Bool
  guardRailsPct : Option (ℚ × ℚ)
  roundStep : Option ℚ
  minRgpMist : Option ℚ
  maxRgpMist : Option ℚ
  jitterRange : Option (ℤ × ℤ)
deriving DecidableEq

/-- The `inputs` echo object returned by `computeNewRgpFromInputs`. -/
structure RgpInputsEcho where
  targetAvgTxUsd : ℚ
  compShare : ℚ
  compCostUsd : ℚ
  currentRgp : ℚ
  guardRailsEnabled : Bool
  guardRailsPct : ℚ × ℚ
  roundStep : ℚ
  minRgpMist : Option ℚ
  maxRgpMist : Option ℚ
  jitterRange : ℤ × ℤ
deriving DecidableEq

/-- The `calc` trace object returned by `computeNewRgpFromInputs`. -/
structure RgpCalcTrace where
  C_target : ℚ
  k : ℚ
  R_raw : ℚ
  clampMin : JsNum
  clampMax : JsNum
  R_clamped : JsNum
  jitter : ℤ
  R_final : ℚ
deriving DecidableEq

/-- The full result of `computeNewRgpFromInputs`.  The source field named
`calc` is called `calcTrace` here because `calc` is a Lean keyword. -/
structure RgpResult where
  inputs : RgpInputsEcho
  calcTrace : RgpCalcTrace
  proposedRgpMist : ℚ
deriving DecidableEq

/-- Body of `computeNewRgpFromInputs` after the four validation throws
(`computeRgp.js` lines 93-146), with the random source injected. -/
def computeCore (rand : ℤ → ℤ → ℤ)
    (targetAvgTxUsd compShare compCostUsd currentRgp : ℚ)
    (options : RgpOptions) : RgpResult :=
  let C_target := compShare * targetAvgTxUsd
  let k := C_target / compCostUsd
  let R_raw := currentRgp * k
  -- Guard rails (relative to current RGP); `?.[i] ?? d` element defaults
  let lowPct := (options.guardRailsPct.map Prod.fst).getD (-20)
  let highPct := (options.guardRailsPct.map Prod.snd).getD 40
  let clampMin : JsNum :=
    if options.guardRailsEnabled then .num (currentRgp * (1 + lowPct / 100)) else .null
  let clampMax : JsNum :=
    if options.guardRailsEnabled then .num (currentRgp * (1 + highPct / 100)) else .null
  -- Apply relative rails
  let R_clamped := clamp R_raw clampMin clampMax
  -- Choose jitter from base magnitudes (`jitterRange || [5, 5]`)
  let baseLow := (options.jitterRange.getD (5, 5)).1
  let baseHigh := (options.jitterRange.getD (5, 5)).2
  let drawn := chooseJitter rand R_clamped clampMin clampMax baseLow baseHigh
  -- Apply jitter → round → absolute min/max (`null + drawn` coerces null to 0)
  let R_afterJitter := jsToNum R_clamped + (drawn : ℚ)
  let R1 := roundToStep R_afterJitter (options.roundStep.getD 10)
  let R2 := applyAbsMin R1 options.minRgpMist
  let R3 := applyAbsMax R2 options.maxRgpMist
  let R_final := max 1 ((jround R3 : ℤ) : ℚ)
  { inputs :=
      { targetAvgTxUsd := targetAvgTxUsd
        compShare := compShare
        compCostUsd := compCostUsd
        currentRgp := currentRgp
        guardRailsEnabled := options.guardRailsEnabled
        guardRailsPct := options.guardRailsPct.getD (-20, 40)
        roundStep :=
          match options.roundStep with
          | some st => if 0 < st then st else 10
          | none => 10
        minRgpMist := options.minRgpMist
        maxRgpMist := options.maxRgpMist
        jitterRange := (baseLow, baseHigh) }
    calcTrace :=
      { C_target := C_target
        k := k
        R_raw := R_raw
        clampMin := clampMin
        clampMax := clampMax
        R_clamped := R_clamped
        jitter := drawn
        R_final := R_final }
    proposedRgpMist := R_final }

/-- `computeNewRgpFromInputs` from `computeRgp.js` (lines 79-147): the four
domain validations throw (modelled as `Except.error` carrying the message),
otherwise the computation of `computeCore` runs. -/
def computeNewRgpFromInputs (rand : ℤ → ℤ → ℤ)
    (targetAvgTxUsd compShare compCostUsd currentRgp : ℚ)
    (options : RgpOptions) : Except String RgpResult :=
  if targetAvgTxUsd ≤ 0 then
    .error "Invalid TARGET_AVG_TX_USD (must be a positive number)"
  else if compShare ≤ 0 ∨ 1 < compShare then
    .error "Invalid avgCompShare (must be in (0,1])"
  else if compCostUsd ≤ 0 then
    .error "Invalid avgComputationCostPerTx_USD (must be > 0)"
  else if currentRgp ≤ 0 then
    .error "Invalid current RGP (must be > 0)"
  else
    .ok (computeCore rand targetAvgTxUsd compShare compCostUsd currentRgp options)

/-- Projection: the `calc` trace of a successful computation. -/
def rgpCalcTrace : Except String RgpResult → Option RgpCalcTrace
  | .ok r => some r.calcTrace
  | .error _ => none

/-- Projection: `calc.R_raw` of a successful computation. -/
def rawOf (e : Except String RgpResult) : Option ℚ :=
  (rgpCalcTrace e).map (·.R_raw)

/-- Projection: `calc.R_clamped` of a successful computation (a `JsNum`!). -/
def clampedOf (e : Except String RgpResult) : Option JsNum :=
  (rgpCalcTrace e).map (·.R_clamped)

/-- Projection: `calc.R_clamped` when it is an actual number. -/
def clampedNumOf (e : Except String RgpResult) : Option ℚ :=
  (rgpCalcTrace e).bind fun c =>
    match c.R_clamped with
    | .num q => some q
    | _ => none

/-- Projection: the final proposal of a successful computation. -/
def finalOf (e : Except String RgpResult) : Option ℚ :=
  match e with
  | .ok r => some r.proposedRgpMist
  | .error _ => none

/-- Whether the computation failed. -/
def isError : Except String RgpResult → Bool
  | .error _ => true
  | .ok _ => false


/- --------------------- metrics.js: data model and helpers --------------------- -/

/-- `padStart(n, c)` on a string (JS `String.prototype.padStart`). -/
def padStart (s : String) (n : ℕ) (c : Char) : String :=
  String.mk (List.replicate (n - s.length) c) ++ s

/-- `divBigIntToDecimalString` from `metrics.js` (lines 56-67): decimal
rendering of `numer/denom` truncated to `decimals` fractional digits via
scaled BigInt division; `'NaN'` for a zero denominator.  BigInt values are
`ℤ`; non-negative BigInt division is ℕ division. -/
def divBigIntToDecimalString (numer denom : ℤ) (decimals : ℕ) : String :=
  if denom = 0 then "NaN"
  else
    let neg := (decide (numer < 0)) ^^ (decide (denom < 0))
    let n := numer.natAbs
    let d := denom.natAbs
    let scale := 10 ^ decimals
    let q := n * scale / d
    let intPart := q / scale
    let fracPart := q % scale
    (if neg then "-" else "") ++ toString intPart ++ "." ++
      padStart (toString fracPart) decimals (Char.ofNat 48)

/-- `MIST_PER_SUI = 1_000_000_000n`. -/
def MIST_PER_SUI : ℤ := 1000000000

/-- `mistToSuiString` from `metrics.js` (lines 69-71). -/
def mistToSuiString (mist : ℤ) (decimals : ℕ) : String :=
  divBigIntToDecimalString mist MIST_PER_SUI decimals

/-- `mistToSuiNumber` from `metrics.js` (lines 73-75):
`Number(divBigIntToDecimalString(mist, MIST_PER_SUI, 9))`.  With denominator
`10^9` and nine fractional digits the scaled division is exact, so the
parsed value is exactly `mist / 10^9` (the ℚ idealisation of the JS float). -/
def mistToSuiNumber (mist : ℤ) : ℚ :=
  (mist : ℚ) / (10 : ℚ) ^ 9

/-- `percentFromBigInt` from `metrics.js` (lines 78-82): `'N/A'` when the
denominator is `null` or `0n` or the numerator is `null`, otherwise the
rendered percentage.  `none` models JS `null`. -/
def percentFromBigInt (numer denom : Option ℤ) (decimals : ℕ) : String :=
  match numer, denom with
  | some n, some d =>
    if d = 0 then "N/A"
    else divBigIntToDecimalString (n * 100) d decimals ++ "%"
  | _, _ => "N/A"

/-- `averageNumbers` from `metrics.js` (lines 84-88): the arithmetic mean of
the finite entries; `none` models both a missing entry (JS `NaN` marker) and
the `NaN` result on an empty list. -/
def averageNumbers (nums : List (Option ℚ)) : Option ℚ :=
  let xs := nums.filterMap id
  if xs.isEmpty then none
  else some (xs.sum / (xs.length : ℚ))

/-- Digit-string value, used to model JS `Number(...)` on the decimal
strings this program itself produces. -/
def digitsVal (l : List Char) : ℕ :=
  l.foldl (fun a c => a * 10 + (c.toNat - 48)) 0

/-- Model of JS `Number(s)` for the sign/decimal strings produced by
`divBigIntToDecimalString` (an optional leading minus, digits, an optional
fractional part). -/
def parseJsNumber (s : String) : ℚ :=
  let neg := s.startsWith "-"
  let t := if neg then s.drop 1 else s
  let v : ℚ :=
    match t.splitOn "." with
    | [ip] => (digitsVal ip.data : ℚ)
    | [ip, fp] => (digitsVal ip.data : ℚ) + (digitsVal fp.data : ℚ) / (10 : ℚ) ^ fp.length
    | _ => 0
  if neg then -v else v

/-- `pctToNum` from `summarize` (line 190):
`(s) => (s === 'N/A' ? NaN : Number(s.replace('%', '')))`;
`none` models `NaN`. -/
def pctToNum (s : String) : Option ℚ :=
  if s = "N/A" then none else some (parseJsNumber (s.dropRight 1))

/-- The `rollingGasSummary` object of a checkpoint, with fields already put
through `toBigIntOrNull` (`none` = absent or failed to parse as a BigInt). -/
structure RollingGasSummary where
  computationCost : Option ℤ
  storageCost : Option ℤ
  storageRebate : Option ℤ
deriving DecidableEq

/-- One node of `checkpoints.nodes`. -/
structure CheckpointNode where
  rollingGasSummary : Option RollingGasSummary
deriving DecidableEq

/-- One raw epoch node of the GraphQL response.  `totalTransactions` is
modelled as an integer because `BigInt(txCount)` on the success path demands
an integral value; `totalStakeRewards` is the `toBigIntOrNull` result.
Timestamps are carried opaquely (`isoDateOnly` formatting is date I/O used
only as a price-map key). -/
structure RawEpochNode where
  epochId : Option ℤ
  startTimestamp : Option String
  endTimestamp : Option String
  totalTransactions : Option ℤ
  totalStakeRewards : Option ℤ
  referenceGasPrice : Option ℚ
  checkpoints : List CheckpointNode
deriving DecidableEq

/-- The per-epoch metric produced by `extractEpoch` (`metrics.js`
lines 162-173). -/
structure EpochMetric where
  epochId : Option ℤ
  startDate : Option String
  endDate : Option String
  txCount : ℤ
  totalGasFee : ℤ
  comp : ℤ
  avgTotalPerTx : ℤ
  avgCompPerTx : ℤ
  compSharePct : String
  gasOverRewardsPct : String
deriving DecidableEq

/-- `extractEpoch` from `metrics.js` (lines 114-174).  `none` is the skip
result (`return null`); BigInt division `Int.tdiv` truncates toward zero
exactly as JS BigInt `/`. -/
def extractEpoch (node : RawEpochNode) : Option EpochMetric :=
  match node.checkpoints with
  | [] => none
  | ck :: _ =>
    match ck.rollingGasSummary with
    | none => none
    | some r =>
      match r.computationCost, r.storageCost, r.storageRebate with
      | some comp, some stor, some rebate =>
        let txCount := node.totalTransactions.getD 0
        if txCount ≤ 0 then none
        else
          let stakeRewards := node.totalStakeRewards
          let totalGasFee := comp + stor - rebate
          let avgTotalPerTx := Int.tdiv totalGasFee txCount
          let avgCompPerTx := Int.tdiv comp txCount
          let compSharePct :=
            if 0 < totalGasFee then percentFromBigInt (some comp) (some totalGasFee) 2
            else "N/A"
          let gasOverRewardsPct :=
            match stakeRewards with
            | some sr =>
              if 0 < sr then percentFromBigInt (some totalGasFee) (some sr) 2 else "N/A"
            | none => "N/A"
          some
            { epochId := node.epochId
              startDate := node.startTimestamp
              endDate := node.endTimestamp
              txCount := txCount
              totalGasFee := totalGasFee
              comp := comp
              avgTotalPerTx := avgTotalPerTx
              avgCompPerTx := avgCompPerTx
              compSharePct := compSharePct
              gasOverRewardsPct := gasOverRewardsPct }
      | _, _, _ => none

/-- An epoch metric with the attached price fields (`attachPrice`). -/
structure EpochWithPrice extends EpochMetric where
  price_usd : Option ℚ
  avgTotalPerTx_USD : Option ℚ
  avgCompPerTx_USD : Option ℚ
deriving DecidableEq

/-- `attachPrice` from `metrics.js` (lines 236-256): price looked up by end
date, falling back to start date; `none` models `'N/A'`. -/
def attachPrice (rows : List EpochMetric) (priceMap : String → Option ℚ) :
    List EpochWithPrice :=
  rows.map fun r =>
    let p := (r.endDate.bind priceMap).orElse fun _ => r.startDate.bind priceMap
    { toEpochMetric := r
      price_usd := p
      avgTotalPerTx_USD := p.map fun pr => mistToSuiNumber r.avgTotalPerTx * pr
      avgCompPerTx_USD := p.map fun pr => mistToSuiNumber r.avgCompPerTx * pr }

/-- The `_num` sub-object of the overall summary (named `nums` here because
field names may not start with an underscore). -/
structure OverallNum where
  avgPriceUSD : Option ℚ
  avgTotalCostPerTx_SUI : ℚ
  avgComputationCostPerTx_SUI : ℚ
  avgTotalCostPerTx_USD : Option ℚ
  avgComputationCostPerTx_USD : Option ℚ
  avgCompShare : Option ℚ
  avgTotalGasOverRewards : Option ℚ
deriving DecidableEq

/-- The overall summary object of `summarize` (`metrics.js` lines 206-231).
USD/percentage display fields are carried as their numeric values
(`toFixed` display formatting elided); `none` models `'N/A'`. -/
structure Overall where
  epochsIncluded : ℕ
  avgTotalTransactions : ℤ
  avgPriceUSD : Option ℚ
  avgTotalGasPerEpoch_SUI : String
  avgComputationPerEpoch_SUI : String
  avgTotalCostPerTx_SUI : String
  avgComputationCostPerTx_SUI : String
  avgTotalCostPerTx_USD : Option ℚ
  avgComputationCostPerTx_USD : Option ℚ
  avgCompSharePct : Option ℚ
  avgTotalGasOverRewardsPct : Option ℚ
  nums : OverallNum
deriving DecidableEq

/-- `summarize` from `metrics.js` (lines 176-234).  The input list contains
no nulls at the call site, so `rows.filter(Boolean)` is the identity. -/
def summarize (rows : List EpochWithPrice) : List EpochWithPrice × Option Overall :=
  let r := rows
  if r.isEmpty then (r, none)
  else
    let len : ℤ := (r.length : ℤ)
    let avgTx := jround (((r.map (·.txCount)).sum : ℚ) / (r.length : ℚ))
    let avgTotalGasPerEpoch := Int.tdiv ((r.map (·.totalGasFee)).sum) len
    let avgCompPerEpoch := Int.tdiv ((r.map (·.comp)).sum) len
    let avgTotalPerTxSimple := Int.tdiv ((r.map (·.avgTotalPerTx)).sum) len
    let avgCompPerTxSimple := Int.tdiv ((r.map (·.avgCompPerTx)).sum) len
    let avgCompSharePct := averageNumbers (r.map fun x => pctToNum x.compSharePct)
    let avgGasOverRewardsPct := averageNumbers (r.map fun x => pctToNum x.gasOverRewardsPct)
    let avgPrice := averageNumbers (r.map (·.price_usd))
    let avgTotalPerTxUSD :=
      averageNumbers (r.map fun x => x.price_usd.map fun p => mistToSuiNumber x.avgTotalPerTx * p)
    let avgCompPerTxUSD :=
      averageNumbers (r.map fun x => x.price_usd.map fun p => mistToSuiNumber x.avgCompPerTx * p)
    (r, some
      { epochsIncluded := r.length
        avgTotalTransactions := avgTx
        avgPriceUSD := avgPrice
        avgTotalGasPerEpoch_SUI := mistToSuiString avgTotalGasPerEpoch 6
        avgComputationPerEpoch_SUI := mistToSuiString avgCompPerEpoch 6
        avgTotalCostPerTx_SUI := mistToSuiString avgTotalPerTxSimple 9
        avgComputationCostPerTx_SUI := mistToSuiString avgCompPerTxSimple 9
        avgTotalCostPerTx_USD := avgTotalPerTxUSD
        avgComputationCostPerTx_USD := avgCompPerTxUSD
        avgCompSharePct := avgCompSharePct
        avgTotalGasOverRewardsPct := avgGasOverRewardsPct
        nums :=
          { avgPriceUSD := avgPrice
            avgTotalCostPerTx_SUI := mistToSuiNumber avgTotalPerTxSimple
            avgComputationCostPerTx_SUI := mistToSuiNumber avgCompPerTxSimple
            avgTotalCostPerTx_USD := avgTotalPerTxUSD
            avgComputationCostPerTx_USD := avgCompPerTxUSD
            avgCompShare := avgCompSharePct.map fun v => v / 100
            avgTotalGasOverRewards := avgGasOverRewardsPct.map fun v => v / 100 } })

/-- The `latestEpoch` sub-object of the payload. -/
structure LatestEpoch where
  epochId : Option ℤ
  referenceGasPrice : Option ℚ
deriving DecidableEq

/-- `getLatestEpochRGP` from `metrics.js` (lines 258-273): the node with the
maximum epoch id among nodes carrying a `referenceGasPrice`. -/
def getLatestEpochRGP (nodes : List RawEpochNode) : LatestEpoch :=
  let latest := nodes.foldl
    (fun acc n =>
      match n.epochId, n.referenceGasPrice with
      | some e, some _ =>
        match acc with
        | none => some n
        | some l => if (l.epochId.getD 0) < e then some n else acc
      | _, _ => acc)
    none
  match latest with
  | none => { epochId := none, referenceGasPrice := none }
  | some l => { epochId := l.epochId, referenceGasPrice := l.referenceGasPrice }

/-- The `overallForRgp` sub-object of the payload. -/
structure OverallForRgp where
  avgTotalCostPerTx_USD : Option ℚ
  avgComputationCostPerTx_USD : Option ℚ
  avgCompShare : Option ℚ
  lastEpochReferenceGasPrice : Option ℚ
deriving DecidableEq

/-- The metrics payload (the `perEpoch` console table, a pure display
artifact, is elided). -/
structure MetricsPayload where
  latestEpoch : LatestEpoch
  overall : Overall
  overallForRgp : OverallForRgp
deriving DecidableEq

/-- The decision core of `collectMetrics` (`metrics.js` lines 279-363) after
the network fetches have materialised `nodes` and `priceMap`: extraction,
the zero-usable-epochs fatal error, price attach, summary, payload assembly.
When `summarize` returns a null overall (impossible here since extraction
already guaranteed a non-empty list) the JS code would crash reading
`overall._num`; this is modelled as an error. -/
def collectMetricsCore (nodes : List RawEpochNode) (priceMap : String → Option ℚ) :
    Except String MetricsPayload :=
  let extracted := (nodes.map extractEpoch).filterMap id
  if extracted.isEmpty then .error "no usable epochs — nothing to compute"
  else
    let withPrice := attachPrice extracted priceMap
    match (summarize withPrice).2 with
    | none => .error "TypeError: overall is null"
    | some overall =>
      let latest := getLatestEpochRGP nodes
      .ok
        { latestEpoch := latest
          overall := overall
          overallForRgp :=
            { avgTotalCostPerTx_USD := overall.nums.avgTotalCostPerTx_USD
              avgComputationCostPerTx_USD := overall.nums.avgComputationCostPerTx_USD
              avgCompShare := overall.nums.avgCompShare
              lastEpochReferenceGasPrice := latest.referenceGasPrice } }

/-- Truncated scaled quotient of `divBigIntToDecimalString`:
`|numer| * 10^decimals / |denom|` in ℕ. -/
def divQ (numer denom : ℤ) (decimals : ℕ) : ℕ :=
  numer.natAbs * 10 ^ decimals / denom.natAbs

/-- Rendering of a sign and a scaled quotient as a decimal string: the shape
`divBigIntToDecimalString` produces on a non-zero denominator. -/
def decimalRender (neg : Bool) (q : ℕ) (decimals : ℕ) : String :=
  (if neg then "-" else "") ++ toString (q / 10 ^ decimals) ++ "." ++
    padStart (toString (q % 10 ^ decimals)) decimals (Char.ofNat 48)

/- ------------------------ concrete runs and inputs ------------------------ -/

/-- The concrete run exhibiting the disabled-guard-rails bug: valid inputs
(the spec scenario), `guardRailsEnabled = false`, all other options absent,
with the draw that always returns the low end of the requested range. -/
def c2run : Except String RgpResult :=
  computeNewRgpFromInputs (fun a _ => a) 0.004 0.6 0.002 500
    ⟨false, none, none, none, none, none⟩

/-- The concrete run refuting C3 as stated: guard rails enabled with the
caller-supplied band `[+50%, -50%]` (low > high, which the code does not
forbid). -/
def c3run : Except String RgpResult :=
  computeNewRgpFromInputs (fun a _ => a) 0.004 0.6 0.002 500
    ⟨true, some (50, -50), some 1, none, none, some (0, 0)⟩

/-- The concrete run refuting C6 as stated: valid inputs, absolute max bound
configured as `0`; the final `Math.max(1, …)` forces the proposal to `1`,
violating `R_final ≤ max`. -/
def c6run : Except String RgpResult :=
  computeNewRgpFromInputs (fun a _ => a) 0.004 0.6 0.002 500
    ⟨true, some (-40, 40), some 10, none, some 0, some (0, 0)⟩


/-- A raw epoch node whose gas summary parses to `comp = 1`, `stor = 1`,
`rebate = 9` with two transactions: accepted by `extractEpoch`, with a
negative total gas fee. -/
def c7node : RawEpochNode :=
  { epochId := some 1, startTimestamp := none, endTimestamp := none,
    totalTransactions := some 2, totalStakeRewards := none, referenceGasPrice := none,
    checkpoints :=
      [{ rollingGasSummary :=
          some { computationCost := some 1, storageCost := some 1,
                 storageRebate := some 9 } }] }

/-- The metric `extractEpoch` produces for `comp = 10`, `stor = 5`,
`rebate = 3`, four transactions. -/
def c7wmetric : EpochMetric :=
  { epochId := some 1, startDate := none, endDate := none, txCount := 4,
    totalGasFee := 12, comp := 10, avgTotalPerTx := 3, avgCompPerTx := 2,
    compSharePct := "83.33%", gasOverRewardsPct := "N/A" }

/-- A raw epoch node with `comp = 0`, `stor = 0`, `rebate = 5`, one
transaction: accepted, with negative derived fields. -/
def c8node : RawEpochNode :=
  { epochId := some 3, startTimestamp := none, endTimestamp := none,
    totalTransactions := some 1, totalStakeRewards := none, referenceGasPrice := none,
    checkpoints :=
      [{ rollingGasSummary :=
          some { computationCost := some 0, storageCost := some 0,
                 storageRebate := some 5 } }] }

/-- The metric `extractEpoch` produces for `comp = 6`, `stor = 4`,
`rebate = 5`, two transactions. -/
def c8wmetric : EpochMetric :=
  { epochId := some 2, startDate := none, endDate := none, txCount := 2,
    totalGasFee := 5, comp := 6, avgTotalPerTx := 2, avgCompPerTx := 3,
    compSharePct := "120.00%", gasOverRewardsPct := "N/A" }

/-- A sample valid epoch row with no attached price. -/
def c9metric : EpochWithPrice :=
  { epochId := some 1, startDate := none, endDate := none, txCount := 1,
    totalGasFee := 5, comp := 3, avgTotalPerTx := 5, avgCompPerTx := 3,
    compSharePct := "N/A", gasOverRewardsPct := "N/A",
    price_usd := none, avgTotalPerTx_USD := none, avgCompPerTx_USD := none }

/-- A raw epoch node with no checkpoints: skipped by `extractEpoch`. -/
def c9badnode : RawEpochNode :=
  { epochId := some 7, startTimestamp := none, endTimestamp := none,
    totalTransactions := some 5, totalStakeRewards := none, referenceGasPrice := none,
    checkpoints := [] }

/- ------------------------- shared helper lemmas ------------------------- -/

/-- Under the four domain validations, `computeNewRgpFromInputs` succeeds and
runs `computeCore`. -/
theorem compute_ok (rand : ℤ → ℤ → ℤ) (T s C R : ℚ) (o : RgpOptions)
    (hT : 0 < T) (hs0 : 0 < s) (hs1 : s ≤ 1) (hC : 0 < C) (hR : 0 < R) :
    computeNewRgpFromInputs rand T s C R o = .ok (computeCore rand T s C R o) := by
  unfold computeNewRgpFromInputs
  rw [if_neg (not_le.mpr hT),
    if_neg (show ¬(s ≤ 0 ∨ 1 < s) by push_neg; exact ⟨hs0, hs1⟩),
    if_neg (not_le.mpr hC), if_neg (not_le.mpr hR)]

/-- With two numeric bounds `a ≤ b`, `clamp` is the usual interval clamp. -/
theorem clamp_num_mem (x a b : ℚ) (hab : a ≤ b) :
    clamp x (.num a) (.num b) = .num (min b (max a x)) := by
  unfold clamp jsLtNum jsGtNum
  by_cases hxa : x < a
  · rw [if_pos ⟨by simp, by simpa using hxa⟩]
    rw [max_eq_left hxa.le, min_eq_right hab]
  · by_cases hbx : b < x
    · rw [if_neg (by simp [hxa]), if_pos ⟨by simp, by simpa using hbx⟩]
      rw [max_eq_right (not_lt.mp hxa), min_eq_left hbx.le]
    · rw [if_neg (by simp [hxa]), if_neg (by simp [hbx])]
      rw [max_eq_right (not_lt.mp hxa), min_eq_right (not_lt.mp hbx)]

/-- If `z ≤ x` for an integer `z` then JS rounding cannot go below `z`. -/
theorem le_jround_of_int_le (z : ℤ) (x : ℚ) (h : (z : ℚ) ≤ x) : z ≤ jround x := by
  refine Int.le_floor.mpr ?_
  have : (0 : ℚ) < 1 / 2 := by norm_num
  linarith

/-- If `x ≤ z` for an integer `z` then JS rounding cannot exceed `z`. -/
theorem jround_le_of_le_int (z : ℤ) (x : ℚ) (h : x ≤ (z : ℚ)) : jround x ≤ z := by
  have hlt : jround x < z + 1 := by
    refine Int.floor_lt.mpr ?_
    push_cast
    linarith
  omega

/-- Constructor disequalities for `JsNum`, used when evaluating concrete
runs by `simp`. -/
theorem jsnull_ne_undef : JsNum.null ≠ JsNum.undef := fun h => by cases h

/-- `JsNum.num` values are distinct from `undefined`. -/
theorem jsnum_ne_undef (q : ℚ) : JsNum.num q ≠ JsNum.undef := fun h => by cases h

/-- `JsNum.num` values are distinct from `null`. -/
theorem jsnum_ne_null (q : ℚ) : JsNum.num q ≠ JsNum.null := fun h => by cases h

/-- `null` is distinct from any `JsNum.num` value. -/
theorem jsnull_ne_num (q : ℚ) : JsNum.null ≠ JsNum.num q := fun h => by cases h

/-- Evaluation form for `Int.ceil` on ℚ in terms of `Int.floor`. -/
theorem qceil_eval (x : ℚ) : ⌈x⌉ = -⌊-x⌋ := by
  rw [Int.floor_neg, neg_neg]

/-- Unfolding lemma for `clampedNumOf` on a successful result. -/
theorem clampedNumOf_ok (r : RgpResult) :
    clampedNumOf (Except.ok r)
      = (match r.calcTrace.R_clamped with
         | JsNum.num q => some q
         | _ => none) := rfl

/-- Bounds for the final assembly `Math.max(1, Math.round(...))` applied
after the absolute bounds, for integer bounds with `max ≥ 1` and
`min ≤ max`. -/
theorem finalAssembly_bounds (x : ℚ) (minO maxO : Option ℚ)
    (hminZ : ∀ m : ℚ, minO = some m → ∃ z : ℤ, m = (z : ℚ))
    (hmaxZ : ∀ M : ℚ, maxO = some M → (∃ z : ℤ, M = (z : ℚ)) ∧ 1 ≤ M)
    (hmm : ∀ m M : ℚ, minO = some m → maxO = some M → m ≤ M) :
    1 ≤ max 1 ((jround (applyAbsMax (applyAbsMin x minO) maxO) : ℤ) : ℚ) ∧
    (∀ m, minO = some m →
      m ≤ max 1 ((jround (applyAbsMax (applyAbsMin x minO) maxO) : ℤ) : ℚ)) ∧
    (∀ M, maxO = some M →
      max 1 ((jround (applyAbsMax (applyAbsMin x minO) maxO) : ℤ) : ℚ) ≤ M) := by
  refine ⟨le_max_left _ _, ?_, ?_⟩
  · intro m hm
    obtain ⟨zm, rfl⟩ := hminZ m hm
    have hy : (zm : ℚ) ≤ applyAbsMax (applyAbsMin x minO) maxO := by
      cases hmax : maxO with
      | none =>
        subst hm
        simp only [applyAbsMin, applyAbsMax]
        exact le_max_right _ _
      | some M =>
        obtain ⟨⟨zM, rfl⟩, hM1⟩ := hmaxZ M hmax
        have hmM : (zm : ℚ) ≤ (zM : ℚ) := hmm _ _ hm hmax
        subst hm
        simp only [applyAbsMin, applyAbsMax]
        exact le_min (le_max_right _ _) hmM
    have hj : zm ≤ jround (applyAbsMax (applyAbsMin x minO) maxO) :=
      le_jround_of_int_le _ _ hy
    have : ((zm : ℤ) : ℚ) ≤ ((jround (applyAbsMax (applyAbsMin x minO) maxO) : ℤ) : ℚ) := by
      exact_mod_cast hj
    exact this.trans (le_max_right _ _)
  · intro M hM
    obtain ⟨⟨zM, rfl⟩, hM1⟩ := hmaxZ M hM
    have hy : applyAbsMax (applyAbsMin x minO) maxO ≤ (zM : ℚ) := by
      subst hM
      simp only [applyAbsMax]
      exact min_le_right _ _
    have hj : jround (applyAbsMax (applyAbsMin x minO) maxO) ≤ zM :=
      jround_le_of_le_int _ _ hy
    have hcast : ((jround (applyAbsMax (applyAbsMin x minO) maxO) : ℤ) : ℚ) ≤ (zM : ℚ) := by
      exact_mod_cast hj
    exact max_le hM1 hcast

/- ------------------------------ claims C1-C6 ------------------------------ -/

/-- C1: for every valid input (`T > 0`, `s ∈ (0,1]`, `C > 0`, `R_now > 0`),
`computeNewRgpFromInputs` computes `C_target = s * T`, `k = C_target / C`
and `R_raw = R_now * k`. -/
theorem C1_core_formula (rand : ℤ → ℤ → ℤ) (T s C R : ℚ) (o : RgpOptions)
    (hT : 0 < T) (hs0 : 0 < s) (hs1 : s ≤ 1) (hC : 0 < C) (hR : 0 < R) :
    (rgpCalcTrace (computeNewRgpFromInputs rand T s C R o)).map (·.C_target)
      = some (s * T) ∧
    (rgpCalcTrace (computeNewRgpFromInputs rand T s C R o)).map (·.k)
      = some ((s * T) / C) ∧
    (rgpCalcTrace (computeNewRgpFromInputs rand T s C R o)).map (·.R_raw)
      = some (R * ((s * T) / C)) := by
  rw [compute_ok rand T s C R o hT hs0 hs1 hC hR]
  exact ⟨rfl, rfl, rfl⟩

/-- C1 witness: the spec scenario `R_now = 500`, `s = 0.6`, `C = 0.002`,
`T = 0.004` yields `k = 1.2` and `R_raw = 600`. -/
theorem C1_core_formula_witness :
    (rgpCalcTrace (computeNewRgpFromInputs (fun a _ => a) 0.004 0.6 0.002 500
        ⟨true, some (-40, 40), some 1, none, none, some (5, 5)⟩)).map (·.k)
      = some 1.2 ∧
    (rgpCalcTrace (computeNewRgpFromInputs (fun a _ => a) 0.004 0.6 0.002 500
        ⟨true, some (-40, 40), some 1, none, none, some (5, 5)⟩)).map (·.R_raw)
      = some 600 := by
  have h := C1_core_formula (fun a _ => a) 0.004 0.6 0.002 500
    ⟨true, some (-40, 40), some 1, none, none, some (5, 5)⟩
    (by norm_num) (by norm_num) (by norm_num) (by norm_num) (by norm_num)
  refine ⟨?_, ?_⟩
  · rw [h.2.1]; norm_num
  · rw [h.2.2]; norm_num

/-- C2 (code bug): with guard rails disabled the code does NOT leave the raw
proposal unclamped.  `clampMin`/`clampMax` are initialised to `null` but
`clamp` only treats `undefined` bounds as absent, and `R_raw > null` is true
for any positive `R_raw`, so `clamp` returns `null`: `R_clamped` is `null`
(not `R_raw = 600`), `null + drawn` coerces to `drawn`, and the pipeline
proceeds from `0`, producing the absurd proposal `1`. -/
theorem C2_null_clamp_bug :
    clampedOf c2run = some JsNum.null ∧
    rawOf c2run = some 600 ∧
    clampedOf c2run ≠ some (JsNum.num 600) ∧
    finalOf c2run = some 1 := by
  norm_num [c2run, computeNewRgpFromInputs, computeCore, clamp, chooseJitter, roundToStep,
    jround, applyAbsMin, applyAbsMax, jsToNum, jsLtNum, jsGtNum, jsLooseNull, jsIsFinite,
    rgpCalcTrace, rawOf, clampedOf, finalOf, jsnull_ne_undef, jsnum_ne_undef, jsnum_ne_null,
    jsnull_ne_num, qceil_eval]

/-- C3 counterexample: with `lowPct = 50 > highPct = -50` the band
`[R_now*(1+50/100), R_now*(1-50/100)] = [750, 250]` is empty; the clamped
value is `750`, which does not lie in it (`750 ≤ 250` is false), refuting
the claim for arbitrary caller-supplied percentages. -/
theorem C3_counterexample :
    clampedNumOf c3run = some 750 ∧
    ¬((500 : ℚ) * (1 + 50 / 100) ≤ 750 ∧ (750 : ℚ) ≤ 500 * (1 + (-50) / 100)) := by
  constructor
  · norm_num [c3run, computeNewRgpFromInputs, computeCore, clamp, chooseJitter, roundToStep,
      jround, applyAbsMin, applyAbsMax, jsToNum, jsLtNum, jsGtNum, jsLooseNull, jsIsFinite,
      rgpCalcTrace, clampedNumOf, Option.some_bind, jsnull_ne_undef, jsnum_ne_undef,
      jsnum_ne_null, qceil_eval]
  · intro h
    have := h.2
    norm_num at this

/-- C3 (amended): for valid inputs with guard rails enabled and
`lowPct ≤ highPct`, the pre-jitter clamped proposal is a number lying in
`[R_now*(1+lowPct/100), R_now*(1+highPct/100)]`. -/
theorem C3_band_amended (rand : ℤ → ℤ → ℤ) (T s C R : ℚ) (o : RgpOptions)
    (hT : 0 < T) (hs0 : 0 < s) (hs1 : s ≤ 1) (hC : 0 < C) (hR : 0 < R)
    (hen : o.guardRailsEnabled = true)
    (hlh : (o.guardRailsPct.map Prod.fst).getD (-20)
            ≤ (o.guardRailsPct.map Prod.snd).getD 40) :
    (clampedNumOf (computeNewRgpFromInputs rand T s C R o)).isSome = true ∧
    ∀ q, clampedNumOf (computeNewRgpFromInputs rand T s C R o) = some q →
      R * (1 + (o.guardRailsPct.map Prod.fst).getD (-20) / 100) ≤ q ∧
      q ≤ R * (1 + (o.guardRailsPct.map Prod.snd).getD 40 / 100) := by
  rw [compute_ok rand T s C R o hT hs0 hs1 hC hR]
  set l := (o.guardRailsPct.map Prod.fst).getD (-20) with hl
  set h := (o.guardRailsPct.map Prod.snd).getD 40 with hh
  have hab : R * (1 + l / 100) ≤ R * (1 + h / 100) := by
    have h100 : 1 + l / 100 ≤ 1 + h / 100 := by linarith
    exact mul_le_mul_of_nonneg_left h100 hR.le
  have hclamped : (computeCore rand T s C R o).calcTrace.R_clamped
      = clamp (R * (s * T / C)) (.num (R * (1 + l / 100))) (.num (R * (1 + h / 100))) := by
    simp only [computeCore, hen, if_true, ← hl, ← hh]
  rw [clamp_num_mem _ _ _ hab] at hclamped
  constructor
  · rw [clampedNumOf_ok, hclamped]
    rfl
  · intro q hq
    rw [clampedNumOf_ok, hclamped] at hq
    have hq' : min (R * (1 + h / 100)) (max (R * (1 + l / 100)) (R * (s * T / C))) = q :=
      Option.some.inj hq
    subst hq'
    exact ⟨le_min hab (le_max_left _ _), min_le_left _ _⟩

/-- C3 amended witness: the spec scenario with rails `[-40, 40]`:
the clamped value `600` lies in `[300, 700]`. -/
theorem C3_band_amended_witness :
    (500 : ℚ) * (1 + (-40) / 100) ≤ 600 ∧ (600 : ℚ) ≤ 500 * (1 + 40 / 100) := by
  have h := C3_band_amended (fun a _ => a) 0.004 0.6 0.002 500
    ⟨true, some (-40, 40), some 1, none, none, some (0, 0)⟩
    (by norm_num) (by norm_num) (by norm_num) (by norm_num) (by norm_num)
    rfl (by norm_num)
  refine h.2 600 ?_
  norm_num [computeNewRgpFromInputs, computeCore, clamp, chooseJitter, roundToStep,
    jround, applyAbsMin, applyAbsMax, jsToNum, jsLtNum, jsGtNum, jsLooseNull, jsIsFinite,
    rgpCalcTrace, clampedNumOf, Option.some_bind, jsnull_ne_undef, jsnum_ne_undef,
    jsnum_ne_null, qceil_eval]

/-- C4 counterexample: at the minimum clamp with a clamp band narrower than
the base magnitude (`[500, 502]`, `baseHigh = 5`), the one-sided draw can
return `5`, and `R_clamped + drawn = 505` leaves the configured band. -/
theorem C4_counterexample :
    chooseJitter (fun _ b => b) (.num 500) (.num 500) (.num 502) 5 5 = 5 ∧
    ¬((500 : ℚ) + ((chooseJitter (fun _ b => b) (.num 500) (.num 500) (.num 502) 5 5 : ℤ) : ℚ)
        ≤ 502) := by
  constructor
  · decide
  · intro hc
    rw [show chooseJitter (fun _ b => b) (.num 500) (.num 500) (.num 502) 5 5 = 5 from by decide]
      at hc
    norm_num at hc

/-- C4 (amended): each jitter state protects the boundary it sits at: at the
minimum clamp the draw is non-negative (`R_clamped + drawn` cannot go below
`clampMin`), at the maximum clamp it is non-positive (cannot go above
`clampMax`), and strictly inside the band the room-intersected draw keeps
`R_clamped + drawn` inside both bounds, returning `0` when the intersected
range is empty.  (At a boundary the opposite bound can still be exceeded
when the band is narrower than the base magnitude.) -/
theorem C4_jitter_amended (rand : ℤ → ℤ → ℤ) (hrand : RandInRange rand)
    (baseLow baseHigh : ℤ) (hbl : 0 ≤ baseLow) (hbh : 0 ≤ baseHigh) (a b x : ℚ) :
    (x = a →
      a ≤ x + ((chooseJitter rand (.num x) (.num a) (.num b) baseLow baseHigh : ℤ) : ℚ)) ∧
    (x = b → x ≠ a →
      x + ((chooseJitter rand (.num x) (.num a) (.num b) baseLow baseHigh : ℤ) : ℚ) ≤ b) ∧
    (a < x → x < b →
      a ≤ x + ((chooseJitter rand (.num x) (.num a) (.num b) baseLow baseHigh : ℤ) : ℚ) ∧
      x + ((chooseJitter rand (.num x) (.num a) (.num b) baseLow baseHigh : ℤ) : ℚ) ≤ b) ∧
    (a < x → x < b → max (-baseLow) ⌈a - x⌉ > min baseHigh ⌊b - x⌋ →
      chooseJitter rand (.num x) (.num a) (.num b) baseLow baseHigh = 0) := by
  refine ⟨?_, ?_, ?_, ?_⟩
  · intro hxa
    subst hxa
    have hdrawn : chooseJitter rand (.num x) (.num x) (.num b) baseLow baseHigh
        = rand 0 baseHigh := by
      simp [chooseJitter, jsLooseNull, jsIsFinite]
    rw [hdrawn]
    have := (hrand 0 baseHigh hbh).1
    have : (0 : ℚ) ≤ ((rand 0 baseHigh : ℤ) : ℚ) := by exact_mod_cast this
    linarith
  · intro hxb hxa
    subst hxb
    have hdrawn : chooseJitter rand (.num x) (.num a) (.num x) baseLow baseHigh
        = rand (-baseLow) 0 := by
      simp [chooseJitter, jsLooseNull, jsIsFinite, hxa]
    rw [hdrawn]
    have hle : -baseLow ≤ 0 := neg_nonpos.mpr hbl
    have := (hrand (-baseLow) 0 hle).2
    have : ((rand (-baseLow) 0 : ℤ) : ℚ) ≤ 0 := by exact_mod_cast this
    linarith
  · intro hax hxb
    have hxa : x ≠ a := ne_of_gt hax
    have hxbne : x ≠ b := ne_of_lt hxb
    have hdrawn : chooseJitter rand (.num x) (.num a) (.num b) baseLow baseHigh
        = (if max (-baseLow) ⌈a - x⌉ > min baseHigh ⌊b - x⌋ then 0
           else rand (max (-baseLow) ⌈a - x⌉) (min baseHigh ⌊b - x⌋)) := by
      simp [chooseJitter, jsLooseNull, jsIsFinite, jsToNum, hxa, hxbne]
    rw [hdrawn]
    by_cases hlohi : max (-baseLow) ⌈a - x⌉ > min baseHigh ⌊b - x⌋
    · rw [if_pos hlohi]
      push_cast
      exact ⟨by linarith, by linarith⟩
    · rw [if_neg hlohi]
      have hrange := hrand _ _ (not_lt.mp hlohi)
      have h1 : ((max (-baseLow) ⌈a - x⌉ : ℤ) : ℚ)
          ≤ ((rand (max (-baseLow) ⌈a - x⌉) (min baseHigh ⌊b - x⌋) : ℤ) : ℚ) :=
        Int.cast_le.mpr hrange.1
      have h2 : ((rand (max (-baseLow) ⌈a - x⌉) (min baseHigh ⌊b - x⌋) : ℤ) : ℚ)
          ≤ ((min baseHigh ⌊b - x⌋ : ℤ) : ℚ) := Int.cast_le.mpr hrange.2
      have hceil : a - x ≤ ((⌈a - x⌉ : ℤ) : ℚ) := Int.le_ceil _
      have hfloor : ((⌊b - x⌋ : ℤ) : ℚ) ≤ b - x := Int.floor_le _
      have hmaxle : ((⌈a - x⌉ : ℤ) : ℚ) ≤ ((max (-baseLow) ⌈a - x⌉ : ℤ) : ℚ) :=
        Int.cast_le.mpr (le_max_right _ _)
      have hminle : ((min baseHigh ⌊b - x⌋ : ℤ) : ℚ) ≤ ((⌊b - x⌋ : ℤ) : ℚ) :=
        Int.cast_le.mpr (min_le_right _ _)
      constructor <;> linarith
  · intro hax hxb hempty
    have hxa : x ≠ a := ne_of_gt hax
    have hxbne : x ≠ b := ne_of_lt hxb
    simp [chooseJitter, jsLooseNull, jsIsFinite, jsToNum, hxa, hxbne, hempty]

/-- C4 amended witness: interior state of the spec scenario (`600` inside
`[300, 700]`, base `[5, 5]` with a draw at the low end): the jittered value
stays inside the band. -/
theorem C4_jitter_amended_witness :
    (300 : ℚ) ≤ 600 + ((chooseJitter (fun a _ => a) (.num 600) (.num 300) (.num 700) 5 5 : ℤ) : ℚ) ∧
    600 + ((chooseJitter (fun a _ => a) (.num 600) (.num 300) (.num 700) 5 5 : ℤ) : ℚ) ≤ 700 := by
  have h := C4_jitter_amended (fun a _ => a) (fun a b hab => ⟨le_refl a, hab⟩)
    5 5 (by norm_num) (by norm_num) 300 700 600
  exact h.2.2.1 (by norm_num) (by norm_num)

/-- C5: `computeNewRgpFromInputs` fails (producing no result) exactly when
one of the four numeric inputs is out of domain: `T ≤ 0`, `s ∉ (0,1]`,
`C ≤ 0`, or `R_now ≤ 0`; in particular no default is ever substituted. -/
theorem C5_validation_iff (rand : ℤ → ℤ → ℤ) (T s C R : ℚ) (o : RgpOptions) :
    isError (computeNewRgpFromInputs rand T s C R o) = true ↔
      (T ≤ 0 ∨ s ≤ 0 ∨ 1 < s ∨ C ≤ 0 ∨ R ≤ 0) := by
  unfold computeNewRgpFromInputs
  split_ifs with h1 h2 h3 h4 <;> simp [isError]
  · exact Or.inl h1
  · rcases h2 with h | h
    · exact Or.inr (Or.inl h)
    · exact Or.inr (Or.inr (Or.inl h))
  · exact Or.inr (Or.inr (Or.inr (Or.inl h3)))
  · exact Or.inr (Or.inr (Or.inr (Or.inr h4)))
  · push_neg at h1 h2 h3 h4
    tauto

/-- C6 counterexample: with `maxRgpMist = 0` configured the final proposal is
`1 > 0`, so `R_final ≤ max` fails: the floor-to-1 step runs after the
absolute bounds and can violate a configured max below `1`. -/
theorem C6_counterexample :
    finalOf c6run = some 1 ∧ ¬((1 : ℚ) ≤ 0) := by
  constructor
  · norm_num [c6run, computeNewRgpFromInputs, computeCore, clamp, chooseJitter, roundToStep,
      jround, applyAbsMin, applyAbsMax, jsToNum, jsLtNum, jsGtNum, jsLooseNull, jsIsFinite,
      rgpCalcTrace, finalOf, jsnull_ne_undef, jsnum_ne_undef, jsnum_ne_null, qceil_eval]
  · norm_num

/-- C6 (amended): for valid inputs, the final proposal always satisfies
`R_final ≥ 1`; and when the configured absolute bounds are integers with
`max ≥ 1` (and `min ≤ max` when both are present), also
`min ≤ R_final ≤ max`. -/
theorem C6_bounds_amended (rand : ℤ → ℤ → ℤ) (T s C R : ℚ) (o : RgpOptions)
    (hT : 0 < T) (hs0 : 0 < s) (hs1 : s ≤ 1) (hC : 0 < C) (hR : 0 < R)
    (hminZ : ∀ m : ℚ, o.minRgpMist = some m → ∃ z : ℤ, m = (z : ℚ))
    (hmaxZ : ∀ M : ℚ, o.maxRgpMist = some M → (∃ z : ℤ, M = (z : ℚ)) ∧ 1 ≤ M)
    (hmm : ∀ m M : ℚ, o.minRgpMist = some m → o.maxRgpMist = some M → m ≤ M) :
    (finalOf (computeNewRgpFromInputs rand T s C R o)).isSome = true ∧
    ∀ f, finalOf (computeNewRgpFromInputs rand T s C R o) = some f →
      1 ≤ f ∧ (∀ m, o.minRgpMist = some m → m ≤ f) ∧
      (∀ M, o.maxRgpMist = some M → f ≤ M) := by
  rw [compute_ok rand T s C R o hT hs0 hs1 hC hR]
  refine ⟨rfl, ?_⟩
  intro f hf
  have hf' : f = (computeCore rand T s C R o).proposedRgpMist := by
    simpa [finalOf] using hf.symm
  obtain ⟨x, hx⟩ : ∃ x : ℚ, (computeCore rand T s C R o).proposedRgpMist
      = max 1 ((jround (applyAbsMax (applyAbsMin x o.minRgpMist) o.maxRgpMist) : ℤ) : ℚ) :=
    ⟨_, rfl⟩
  rw [hf', hx]
  exact finalAssembly_bounds x o.minRgpMist o.maxRgpMist hminZ hmaxZ hmm

/-- C6 amended witness: a concrete run with `min = 100`, `max = 1000`
configured produces the proposal `600`, inside `[100, 1000]` and `≥ 1`. -/
theorem C6_bounds_amended_witness :
    (1 : ℚ) ≤ 600 ∧ (100 : ℚ) ≤ 600 ∧ (600 : ℚ) ≤ 1000 := by
  have h := C6_bounds_amended (fun a _ => a) 0.004 0.6 0.002 500
    ⟨true, some (-40, 40), some 10, some 100, some 1000, some (5, 5)⟩
    (by norm_num) (by norm_num) (by norm_num) (by norm_num) (by norm_num)
    (by intro m hm; obtain rfl : (100 : ℚ) = m := by simpa using hm
        exact ⟨100, by norm_num⟩)
    (by intro M hM; obtain rfl : (1000 : ℚ) = M := by simpa using hM
        exact ⟨⟨1000, by norm_num⟩, by norm_num⟩)
    (by intro m M hm hM
        obtain rfl : (100 : ℚ) = m := by simpa using hm
        obtain rfl : (1000 : ℚ) = M := by simpa using hM
        norm_num)
  obtain ⟨h1, h2, h3⟩ := h.2 600 (by
    norm_num [computeNewRgpFromInputs, computeCore, clamp, chooseJitter, roundToStep,
      jround, applyAbsMin, applyAbsMax, jsToNum, jsLtNum, jsGtNum, jsLooseNull, jsIsFinite,
      rgpCalcTrace, finalOf, jsnull_ne_undef, jsnum_ne_undef, jsnum_ne_null, qceil_eval])
  exact ⟨h1, h2 100 rfl, h3 1000 rfl⟩

/- --------------------- helper lemmas for claims C7-C10 --------------------- -/

/-- Strict upper bound for ℕ division cast into ℚ. -/
theorem rat_lt_nat_div_succ (a b : ℕ) (hb : b ≠ 0) :
    (a : ℚ) / (b : ℚ) < ((a / b : ℕ) : ℚ) + 1 := by
  have hb0 : 0 < b := Nat.pos_of_ne_zero hb
  have hbq : (0 : ℚ) < (b : ℚ) := by exact_mod_cast hb0
  rw [div_lt_iff₀ hbq]
  have hnat : a < (a / b + 1) * b := by
    have hmod := Nat.div_add_mod a b
    have hlt : a % b < b := Nat.mod_lt _ hb0
    calc a = b * (a / b) + a % b := (Nat.div_add_mod a b).symm
      _ < b * (a / b) + b := Nat.add_lt_add_left hlt _
      _ = (a / b + 1) * b := by ring
  calc (a : ℚ) < (((a / b + 1) * b : ℕ) : ℚ) := by exact_mod_cast hnat
    _ = (((a / b : ℕ) : ℚ) + 1) * (b : ℚ) := by push_cast; ring

/-- Truncating division of non-negative integers is non-negative. -/
theorem tdiv_nonneg_of_nonneg (a b : ℤ) (ha : 0 ≤ a) (hb : 0 ≤ b) :
    0 ≤ Int.tdiv a b := by
  obtain ⟨m, rfl⟩ := Int.eq_ofNat_of_zero_le ha
  obtain ⟨n, rfl⟩ := Int.eq_ofNat_of_zero_le hb
  rw [show Int.tdiv (m : ℤ) (n : ℤ) = ((m / n : ℕ) : ℤ) from rfl]
  exact Int.ofNat_nonneg _

/-- On a non-negative numerator and positive denominator, truncating
division coincides with the rational floor (floor division). -/
theorem tdiv_eq_floor_of_nonneg (a b : ℤ) (ha : 0 ≤ a) (hb : 0 < b) :
    Int.tdiv a b = ⌊(a : ℚ) / (b : ℚ)⌋ := by
  obtain ⟨m, rfl⟩ := Int.eq_ofNat_of_zero_le ha
  obtain ⟨n, rfl⟩ := Int.eq_ofNat_of_zero_le hb.le
  have hn : n ≠ 0 := by
    intro h
    subst h
    exact absurd hb (by norm_num)
  rw [show Int.tdiv (m : ℤ) (n : ℤ) = ((m / n : ℕ) : ℤ) from rfl]
  symm
  rw [Int.floor_eq_iff]
  constructor
  · push_cast
    exact Nat.cast_div_le
  · push_cast
    exact rat_lt_nat_div_succ m n hn

/-- Shape of an accepted extraction: the metric's fields in terms of the
parsed gas-cost inputs of the node. -/
theorem extractEpoch_shape (eid : Option ℤ) (sT eT : Option String)
    (ott osr : Option ℤ) (orgp : Option ℚ) (comp stor rebate : ℤ)
    (rest : List CheckpointNode) (m : EpochMetric)
    (hm : extractEpoch
        { epochId := eid, startTimestamp := sT, endTimestamp := eT,
          totalTransactions := ott, totalStakeRewards := osr,
          referenceGasPrice := orgp,
          checkpoints :=
            { rollingGasSummary :=
                some { computationCost := some comp, storageCost := some stor,
                       storageRebate := some rebate } } :: rest } = some m) :
    0 < m.txCount ∧ m.txCount = ott.getD 0 ∧ m.comp = comp ∧
    m.totalGasFee = comp + stor - rebate ∧
    m.avgTotalPerTx = Int.tdiv (comp + stor - rebate) (ott.getD 0) ∧
    m.avgCompPerTx = Int.tdiv comp (ott.getD 0) := by
  simp only [extractEpoch] at hm
  by_cases htx : ott.getD 0 ≤ 0
  · rw [if_pos htx] at hm
    exact Option.noConfusion hm
  · rw [if_neg htx] at hm
    obtain rfl := (Option.some.inj hm).symm
    exact ⟨not_le.mp htx, rfl, rfl, rfl, rfl, rfl⟩

/- ------------------------------ claims C7-C10 ------------------------------ -/

/-- C7 counterexample: a record whose fields parse as the integers
`comp = 1`, `stor = 1`, `rebate = 9` with `txCount = 2` is accepted, derives
`totalGasFee = -7`, and `avgTotalPerTx = -3` — BigInt division truncated
toward zero — while floor division would give `⌊-7/2⌋ = -4`, refuting
"floor integer division" as stated. -/
theorem C7_counterexample :
    (extractEpoch c7node).map (fun m => (m.totalGasFee, m.avgTotalPerTx)) = some (-7, -3) ∧
    Int.fdiv (-7 : ℤ) 2 = -4 ∧ (-3 : ℤ) ≠ Int.fdiv (-7 : ℤ) 2 := by
  refine ⟨by decide, by decide, by decide⟩

/-- C7 (amended): for every record accepted by `extractEpoch`,
`totalGasFee = computation + storage - rebate` exactly in integer
arithmetic, and the per-transaction averages are BigInt division truncated
toward zero (`Int.tdiv`), which coincides with floor division whenever the
numerator is non-negative; no floating-point enters the fee-unit domain
(all fields are `ℤ`). -/
theorem C7_exact_arithmetic (eid : Option ℤ) (sT eT : Option String)
    (ott osr : Option ℤ) (orgp : Option ℚ) (comp stor rebate : ℤ)
    (rest : List CheckpointNode) (m : EpochMetric)
    (hm : extractEpoch
        { epochId := eid, startTimestamp := sT, endTimestamp := eT,
          totalTransactions := ott, totalStakeRewards := osr,
          referenceGasPrice := orgp,
          checkpoints :=
            { rollingGasSummary :=
                some { computationCost := some comp, storageCost := some stor,
                       storageRebate := some rebate } } :: rest } = some m) :
    m.totalGasFee = comp + stor - rebate ∧
    m.avgTotalPerTx = Int.tdiv m.totalGasFee m.txCount ∧
    m.avgCompPerTx = Int.tdiv comp m.txCount ∧
    0 < m.txCount ∧
    (0 ≤ m.totalGasFee →
      m.avgTotalPerTx = ⌊(m.totalGasFee : ℚ) / (m.txCount : ℚ)⌋) ∧
    (0 ≤ comp → m.avgCompPerTx = ⌊(comp : ℚ) / (m.txCount : ℚ)⌋) := by
  obtain ⟨htx, htxeq, hcomp, htgf, havg, havgc⟩ :=
    extractEpoch_shape eid sT eT ott osr orgp comp stor rebate rest m hm
  refine ⟨htgf, ?_, ?_, htx, ?_, ?_⟩
  · rw [havg, htgf, htxeq]
  · rw [havgc, htxeq]
  · intro h
    rw [havg, htgf, htxeq]
    exact tdiv_eq_floor_of_nonneg _ _ (by rw [htgf] at h; exact h)
      (by rw [htxeq] at htx; exact htx)
  · intro h
    rw [havgc, htxeq]
    exact tdiv_eq_floor_of_nonneg _ _ h (by rw [htxeq] at htx; exact htx)

/-- C7 witness: `comp = 10`, `stor = 5`, `rebate = 3`, `txCount = 4` gives
`totalGasFee = 12`, `avgTotalPerTx = 3 = ⌊12/4⌋`, `avgCompPerTx = 2`. -/
theorem C7_exact_arithmetic_witness :
    c7wmetric.totalGasFee = 10 + 5 - 3 ∧
    c7wmetric.avgTotalPerTx = Int.tdiv c7wmetric.totalGasFee c7wmetric.txCount ∧
    c7wmetric.avgCompPerTx = Int.tdiv 10 c7wmetric.txCount ∧
    0 < c7wmetric.txCount ∧
    (0 ≤ c7wmetric.totalGasFee →
      c7wmetric.avgTotalPerTx = ⌊(c7wmetric.totalGasFee : ℚ) / (c7wmetric.txCount : ℚ)⌋) ∧
    (0 ≤ (10 : ℤ) →
      c7wmetric.avgCompPerTx = ⌊((10 : ℤ) : ℚ) / (c7wmetric.txCount : ℚ)⌋) :=
  C7_exact_arithmetic (some 1) none none (some 4) none none 10 5 3 [] c7wmetric (by decide)

/-- C8 counterexample: the record `comp = 0`, `stor = 0`, `rebate = 5`,
`txCount = 1` is accepted (all three parse as integers, no non-negativity
check exists), and the returned metric has `totalGasFee = -5 < 0` and
`avgTotalPerTx = -5 < 0`, refuting the non-negativity invariant. -/
theorem C8_counterexample :
    (extractEpoch c8node).map (fun m => (m.totalGasFee, m.avgTotalPerTx, m.avgCompPerTx))
      = some (-5, -5, 0) ∧ ¬((0 : ℤ) ≤ -5) := by
  refine ⟨by decide, by decide⟩

/-- C8 (amended): the derived total gas fee and per-transaction costs are
non-negative provided the parsed computation cost is non-negative and the
rebate does not exceed computation + storage. -/
theorem C8_nonneg_amended (eid : Option ℤ) (sT eT : Option String)
    (ott osr : Option ℤ) (orgp : Option ℚ) (comp stor rebate : ℤ)
    (rest : List CheckpointNode) (m : EpochMetric)
    (hm : extractEpoch
        { epochId := eid, startTimestamp := sT, endTimestamp := eT,
          totalTransactions := ott, totalStakeRewards := osr,
          referenceGasPrice := orgp,
          checkpoints :=
            { rollingGasSummary :=
                some { computationCost := some comp, storageCost := some stor,
                       storageRebate := some rebate } } :: rest } = some m)
    (hc : 0 ≤ comp) (hsum : rebate ≤ comp + stor) :
    0 ≤ m.totalGasFee ∧ 0 ≤ m.avgTotalPerTx ∧ 0 ≤ m.avgCompPerTx := by
  obtain ⟨htx, htxeq, hcomp, htgf, havg, havgc⟩ :=
    extractEpoch_shape eid sT eT ott osr orgp comp stor rebate rest m hm
  have htgf0 : 0 ≤ comp + stor - rebate := by linarith
  have htx0 : 0 ≤ ott.getD 0 := by
    rw [htxeq] at htx
    exact htx.le
  refine ⟨by rw [htgf]; exact htgf0, ?_, ?_⟩
  · rw [havg]
    exact tdiv_nonneg_of_nonneg _ _ htgf0 htx0
  · rw [havgc]
    exact tdiv_nonneg_of_nonneg _ _ hc htx0

/-- C8 witness: `comp = 6`, `stor = 4`, `rebate = 5`, `txCount = 2`: all
derived fields are non-negative. -/
theorem C8_nonneg_amended_witness :
    (0 : ℤ) ≤ c8wmetric.totalGasFee ∧ (0 : ℤ) ≤ c8wmetric.avgTotalPerTx ∧
    (0 : ℤ) ≤ c8wmetric.avgCompPerTx :=
  C8_nonneg_amended (some 2) none none (some 2) none none 6 4 5 [] c8wmetric
    (by decide) (by norm_num) (by norm_num)

/-- C9: with zero valid epoch rows `summarize` returns a `none` overall
summary (and a non-empty row list always yields a `some` summary, never an
empty/zero one), and when extraction leaves no usable epoch the
metrics-collection core fails with the fatal error instead of producing a
payload. -/
theorem C9_zero_valid_fatal :
    (summarize ([] : List EpochWithPrice)).2 = none ∧
    (∀ rows : List EpochWithPrice, rows ≠ [] → ((summarize rows).2).isSome = true) ∧
    (∀ (nodes : List RawEpochNode) (priceMap : String → Option ℚ),
      (nodes.map extractEpoch).filterMap id = [] →
      collectMetricsCore nodes priceMap = .error "no usable epochs — nothing to compute") := by
  refine ⟨rfl, ?_, ?_⟩
  · intro rows h
    cases rows with
    | nil => exact absurd rfl h
    | cons a t => rfl
  · intro nodes pm h
    simp [collectMetricsCore, h]

/-- C9 witness: a one-row list yields a `some` summary; a node list whose
single node has no checkpoints extracts to nothing and the collection core
fails with the fatal error. -/
theorem C9_zero_valid_fatal_witness :
    ([c9metric] ≠ ([] : List EpochWithPrice)) ∧
    ((summarize [c9metric]).2).isSome = true ∧
    ([c9badnode].map extractEpoch).filterMap id = ([] : List EpochMetric) ∧
    collectMetricsCore [c9badnode] (fun _ => none)
      = .error "no usable epochs — nothing to compute" := by
  refine ⟨by simp, C9_zero_valid_fatal.2.1 [c9metric] (by simp), rfl,
    C9_zero_valid_fatal.2.2 [c9badnode] (fun _ => none) rfl⟩

/-- C10: `divBigIntToDecimalString` is total: a zero denominator yields the
string `"NaN"`; `percentFromBigInt` yields `"N/A"` whenever the denominator
is `null` or `0n` (or the numerator is `null`); and on a non-zero
denominator the result is the decimal rendering, with the sign of
`numer/denom`, of the scaled quotient `q = |numer|·10^decimals / |denom|`,
which is exactly `|numer/denom|·10^decimals` truncated toward zero:
`q ≤ |n/d|·10^dec < q + 1`. -/
theorem C10_div_total :
    (∀ (n : ℤ) (dec : ℕ), divBigIntToDecimalString n 0 dec = "NaN") ∧
    (∀ (num : Option ℤ) (dec : ℕ), percentFromBigInt num none dec = "N/A") ∧
    (∀ (d : ℤ) (dec : ℕ), percentFromBigInt none (some d) dec = "N/A") ∧
    (∀ (n : ℤ) (dec : ℕ), percentFromBigInt (some n) (some 0) dec = "N/A") ∧
    (∀ (n d : ℤ) (dec : ℕ), d ≠ 0 →
      divBigIntToDecimalString n d dec
        = decimalRender ((decide (n < 0)) ^^ (decide (d < 0))) (divQ n d dec) dec ∧
      (divQ n d dec : ℚ) ≤ |(n : ℚ) / (d : ℚ)| * 10 ^ dec ∧
      |(n : ℚ) / (d : ℚ)| * 10 ^ dec < (divQ n d dec : ℚ) + 1) := by
  refine ⟨fun n dec => rfl, fun num dec => ?_, fun d dec => rfl, fun n dec => rfl,
    fun n d dec hd => ?_⟩
  · cases num <;> rfl
  · constructor
    · rw [divBigIntToDecimalString, if_neg hd]
      rfl
    · have hd' : d.natAbs ≠ 0 := Int.natAbs_ne_zero.mpr hd
      have habs : |(n : ℚ) / (d : ℚ)| * 10 ^ dec
          = ((n.natAbs * 10 ^ dec : ℕ) : ℚ) / ((d.natAbs : ℕ) : ℚ) := by
        rw [abs_div,
          show |(n : ℚ)| = ((n.natAbs : ℕ) : ℚ) from (Int.cast_natAbs.trans Int.cast_abs).symm,
          show |(d : ℚ)| = ((d.natAbs : ℕ) : ℚ) from (Int.cast_natAbs.trans Int.cast_abs).symm]
        push_cast
        ring
      rw [habs]
      simp only [divQ]
      exact ⟨Nat.cast_div_le, rat_lt_nat_div_succ _ _ hd'⟩

/-- C10 witness: `-7 / 2` with three decimals renders as `"-3.500"`, the
rendering of the truncated scaled quotient `3500` with a negative sign, and
`3500 ≤ |−7/2|·10³ < 3501`. -/
theorem C10_div_total_witness :
    divBigIntToDecimalString (-7) 2 3 = "-3.500" ∧
    (divBigIntToDecimalString (-7) 2 3
        = decimalRender ((decide ((-7 : ℤ) < 0)) ^^ (decide ((2 : ℤ) < 0))) (divQ (-7) 2 3) 3 ∧
      (divQ (-7) 2 3 : ℚ) ≤ |((-7 : ℤ) : ℚ) / ((2 : ℤ) : ℚ)| * 10 ^ 3 ∧
      |((-7 : ℤ) : ℚ) / ((2 : ℤ) : ℚ)| * 10 ^ 3 < (divQ (-7) 2 3 : ℚ) + 1) :=
  ⟨by decide, C10_div_total.2.2.2.2 (-7) 2 3 (by norm_num)⟩

end SuiRgp
